import Mathlib

/-!
Shallow embedding of the load-market analysis pipeline (`src/handler.py`).

Real numbers of the Python source (floats) are modelled as exact rationals
(`ℚ`); Python's built-in `round` (round-half-to-even, "banker's rounding")
is modelled by `roundHalfEven` below, and `round(x, n)` by `roundTo1` /
`roundTo2`.  Python dictionaries with a fixed key set become structures;
dictionaries that can take one of two shapes (success vs error) become
two-constructor inductives.  Strings that the source builds by formatting
numbers into f-strings are modelled as inductive values carrying the same
payloads, each constructor documented with the exact f-string it stands for.
All definitions are executable.
-/

/-- Python's built-in `round(q)`: round to the nearest integer, ties to the
even integer (banker's rounding). -/
def roundHalfEven (q : ℚ) : ℤ :=
  let f := ⌊q⌋
  let r := q - f
  if r < 1/2 then f
  else if 1/2 < r then f + 1
  else if f % 2 = 0 then f else f + 1

/-- Python's `round(q, 1)`. -/
def roundTo1 (q : ℚ) : ℚ := (roundHalfEven (10 * q) : ℚ) / 10

/-- Python's `round(q, 2)`. -/
def roundTo2 (q : ℚ) : ℚ := (roundHalfEven (100 * q) : ℚ) / 100

lemma roundHalfEven_abs_sub_le (q : ℚ) : |(roundHalfEven q : ℚ) - q| ≤ 1/2 := by
  have hfl : (⌊q⌋ : ℚ) ≤ q := Int.floor_le q
  have hfu : q < (⌊q⌋ : ℚ) + 1 := Int.lt_floor_add_one q
  unfold roundHalfEven
  dsimp only
  split_ifs with h1 h2 h3 <;> rw [abs_le] <;> push_cast <;> constructor <;> linarith

lemma roundHalfEven_nonneg_of_nonneg {q : ℚ} (h : 0 ≤ q) : 0 ≤ roundHalfEven q := by
  have hb := roundHalfEven_abs_sub_le q
  rw [abs_le] at hb
  by_contra hneg
  push_neg at hneg
  have h1 : roundHalfEven q ≤ -1 := by omega
  have h2 : ((roundHalfEven q : ℤ) : ℚ) ≤ -1 := by exact_mod_cast h1
  linarith [hb.1]

lemma roundHalfEven_le_of_le {q c : ℚ} {n : ℤ} (hc : c ≤ (n : ℚ)) (h : q ≤ c) :
    roundHalfEven q ≤ n := by
  have hb := roundHalfEven_abs_sub_le q
  rw [abs_le] at hb
  have : (roundHalfEven q : ℚ) < (n : ℚ) + 1 := by linarith [hb.2]
  exact_mod_cast Int.lt_add_one_iff.mp (by exact_mod_cast this)

lemma roundTo1_abs_sub_le (q : ℚ) : |roundTo1 q - q| ≤ 1/20 := by
  have hb := roundHalfEven_abs_sub_le (10 * q)
  rw [abs_le] at hb ⊢
  unfold roundTo1
  constructor <;> [linarith [hb.1]; linarith [hb.2]]

/-! ## LoadQualityScorer (`calculate_load_score`, handler.py lines 485-570)

The Python function threads a running `quality_score` and a growing
`factors` list through five independent, order-fixed blocks.  Each block's
score adjustment and factor contribution depend only on that block's own
input, so the embedding states each block as its own definition and
recombines them by addition / list concatenation in the source's order.
The `rate_comparison` and `driver_pay` arguments pass Python's
`isinstance(x, (int, float))` check exactly when they are `some _` here.
-/

/-- One entry of the scorer's `factors` list.  Each constructor stands for
the exact f-string the source appends, with the numeric payload it formats:
`rateAbove q` is `f"{round(rate_comparison, 1)}% above market rate"`,
`rateBelow q` is `f"{abs(round(rate_comparison, 1))}% below market rate"`,
`highWeatherRisk` is `"High weather risk"`,
`moderateWeatherRisk` is `"Moderate weather risk"`,
`severeDelay q` is `f"Severe delay risk ({weather_delay_hours} hrs)"`,
`significantDelay q` is `f"Significant delay risk ({weather_delay_hours} hrs)"`,
`excessiveDeadhead n` is `f"Excessive deadhead ({round(deadhead_ratio * 100)}%)"`,
`highDeadhead n` is `f"High deadhead ({round(deadhead_ratio * 100)}%)"`,
`excellentPay` is `"Excellent pay"`, `goodPay` is `"Good pay"`. -/
inductive Factor where
  | rateAbove (pct : ℚ)
  | rateBelow (pct : ℚ)
  | highWeatherRisk
  | moderateWeatherRisk
  | severeDelay (hours : ℚ)
  | significantDelay (hours : ℚ)
  | excessiveDeadhead (pct : ℤ)
  | highDeadhead (pct : ℤ)
  | excellentPay
  | goodPay
  deriving DecidableEq

/-- Factor 1 score term: `max(min(rate_comparison, 30), -30) * (25/30)`,
contributed only when the argument is numeric. -/
def rate_score_adj (rate_comparison : Option ℚ) : ℚ :=
  match rate_comparison with
  | some rc => max (min rc 30) (-30) * (25/30)
  | none => 0

/-- Factor 1 phrases: appended when the numeric rate difference is nonzero. -/
def rate_factor_phrases (rate_comparison : Option ℚ) : List Factor :=
  match rate_comparison with
  | some rc =>
      if 0 < rc then [Factor.rateAbove (roundTo1 rc)]
      else if rc < 0 then [Factor.rateBelow |roundTo1 rc|]
      else []
  | none => []

/-- Factor 2 score term: `-(weather_risk_score / 6.67)`, applied
unconditionally. -/
def weather_score_adj (weather_risk_score : ℚ) : ℚ :=
  -(weather_risk_score / 6.67)

/-- Factor 2 phrases (two tiers, `> 50` and `> 25`). -/
def weather_factor_phrases (weather_risk_score : ℚ) : List Factor :=
  if 50 < weather_risk_score then [Factor.highWeatherRisk]
  else if 25 < weather_risk_score then [Factor.moderateWeatherRisk]
  else []

/-- Factor 3 score term: `-min(weather_delay_hours * 3, 15)` inside the
`weather_delay_hours > 0` guard. -/
def delay_score_adj (weather_delay_hours : ℚ) : ℚ :=
  if 0 < weather_delay_hours then -(min (weather_delay_hours * 3) 15) else 0

/-- Factor 3 phrases (two tiers, `>= 4` and `>= 2`, inside the `> 0` guard). -/
def delay_factor_phrases (weather_delay_hours : ℚ) : List Factor :=
  if 0 < weather_delay_hours then
    if 4 ≤ weather_delay_hours then [Factor.severeDelay weather_delay_hours]
    else if 2 ≤ weather_delay_hours then [Factor.significantDelay weather_delay_hours]
    else []
  else []

/-- Factor 4 score term: `-min(deadhead_ratio * 40, 20)` inside the
`deadhead_ratio > 0` guard. -/
def deadhead_score_adj (deadhead_ratio : ℚ) : ℚ :=
  if 0 < deadhead_ratio then -(min (deadhead_ratio * 40) 20) else 0

/-- Factor 4 phrases (two tiers, `> 0.4` and `> 0.25`, inside the `> 0`
guard). -/
def deadhead_factor_phrases (deadhead_ratio : ℚ) : List Factor :=
  if 0 < deadhead_ratio then
    if 0.4 < deadhead_ratio then
      [Factor.excessiveDeadhead (roundHalfEven (deadhead_ratio * 100))]
    else if 0.25 < deadhead_ratio then
      [Factor.highDeadhead (roundHalfEven (deadhead_ratio * 100))]
    else []
  else []

/-- Factor 5 score term: pay-tier bonus inside the
`isinstance(driver_pay, (int, float)) and driver_pay > 0` guard. -/
def pay_score_adj (driver_pay : Option ℚ) : ℚ :=
  match driver_pay with
  | some p =>
      if 0 < p then
        if 500 < p then 15
        else if 350 < p then 10
        else if 250 < p then 5
        else 0
      else 0
  | none => 0

/-- Factor 5 phrases: the source appends a phrase only in the two top pay
tiers (`> 500` and `> 350`); the `> 250` tier adds +5 points silently. -/
def pay_factor_phrases (driver_pay : Option ℚ) : List Factor :=
  match driver_pay with
  | some p =>
      if 0 < p then
        if 500 < p then [Factor.excellentPay]
        else if 350 < p then [Factor.goodPay]
        else []
      else []
  | none => []

/-- The running `quality_score` after all five blocks: base 50 plus the five
adjustments, in source order. -/
def load_score_quality (rate_comparison : Option ℚ) (weather_risk_score : ℚ)
    (deadhead_ratio : ℚ) (driver_pay : Option ℚ) (weather_delay_hours : ℚ) : ℚ :=
  50 + rate_score_adj rate_comparison + weather_score_adj weather_risk_score
    + delay_score_adj weather_delay_hours + deadhead_score_adj deadhead_ratio
    + pay_score_adj driver_pay

/-- The full `factors` list before the final `factors[:3]` truncation,
concatenated in the source's append order. -/
def load_score_factors (rate_comparison : Option ℚ) (weather_risk_score : ℚ)
    (deadhead_ratio : ℚ) (driver_pay : Option ℚ) (weather_delay_hours : ℚ) : List Factor :=
  rate_factor_phrases rate_comparison ++ weather_factor_phrases weather_risk_score
    ++ delay_factor_phrases weather_delay_hours ++ deadhead_factor_phrases deadhead_ratio
    ++ pay_factor_phrases driver_pay

/-- The category thresholds applied to the final rounded score. -/
def score_category (final_score : ℤ) : String :=
  if 80 ≤ final_score then "Excellent"
  else if 65 ≤ final_score then "Good"
  else if 45 ≤ final_score then "Average"
  else if 25 ≤ final_score then "Poor"
  else "Very Poor"

/-- Result dictionary of `calculate_load_score`. -/
structure LoadScore where
  score : ℤ
  category : String
  key_factors : List Factor
  deriving DecidableEq

/-- `calculate_load_score` (handler.py lines 485-570):
`final_score = round(max(0, min(100, quality_score)))`, category by
threshold, `key_factors = factors[:3]`.  The `trip_miles` parameter is
accepted exactly as in the source signature. -/
def calculate_load_score (rate_comparison : Option ℚ) (weather_risk_score : ℚ)
    (deadhead_ratio : ℚ) (trip_miles : ℚ) (driver_pay : Option ℚ)
    (weather_delay_hours : ℚ) : LoadScore :=
  let quality_score := load_score_quality rate_comparison weather_risk_score
    deadhead_ratio driver_pay weather_delay_hours
  let final_score := roundHalfEven (max 0 (min 100 quality_score))
  { score := final_score
    category := score_category final_score
    key_factors := (load_score_factors rate_comparison weather_risk_score
      deadhead_ratio driver_pay weather_delay_hours).take 3 }

/-- C1: for every combination of numeric inputs (including arbitrarily
extreme rate differences, risk scores, deadhead ratios, trip miles, pay and
delay hours), `calculate_load_score` returns an integer score in the closed
range `[0, 100]`. -/
theorem load_score_in_range (rate_comparison : Option ℚ) (weather_risk_score : ℚ)
    (deadhead_ratio : ℚ) (trip_miles : ℚ) (driver_pay : Option ℚ)
    (weather_delay_hours : ℚ) :
    0 ≤ (calculate_load_score rate_comparison weather_risk_score deadhead_ratio
          trip_miles driver_pay weather_delay_hours).score ∧
    (calculate_load_score rate_comparison weather_risk_score deadhead_ratio
          trip_miles driver_pay weather_delay_hours).score ≤ 100 := by
  unfold calculate_load_score
  dsimp only
  set q := load_score_quality rate_comparison weather_risk_score deadhead_ratio
    driver_pay weather_delay_hours with hq
  constructor
  · exact roundHalfEven_nonneg_of_nonneg (le_max_left 0 (min 100 q))
  · exact roundHalfEven_le_of_le (le_refl (100 : ℚ))
      (max_le (by norm_num) (min_le_left 100 q))

/-- C2: on rate difference 20%, zero weather risk, zero deadhead ratio,
trip miles 500, driver pay 600 and zero delay hours, the scorer returns
score 82 (50 + 20×(25/30) + 15 = 81.67 rounded) with category
"Excellent". -/
theorem load_score_scenario_82 :
    (calculate_load_score (some 20) 0 0 500 (some 600) 0).score = 82 ∧
    (calculate_load_score (some 20) 0 0 500 (some 600) 0).category = "Excellent" := by
  have hq : load_score_quality (some 20) 0 0 (some 600) 0 = 245/3 := by
    norm_num [load_score_quality, rate_score_adj, weather_score_adj,
      delay_score_adj, deadhead_score_adj, pay_score_adj, min_def, max_def]
  have hclamp : max (0 : ℚ) (min 100 (245/3)) = 245/3 := by
    rw [min_eq_right (by norm_num : (245/3 : ℚ) ≤ 100),
      max_eq_right (by norm_num : (0 : ℚ) ≤ 245/3)]
  have hfl : ⌊(245/3 : ℚ)⌋ = 81 := by
    rw [Int.floor_eq_iff] <;> norm_num
  have hr : roundHalfEven (245/3) = 82 := by
    unfold roundHalfEven
    dsimp only
    rw [hfl]
    norm_num
  have hscore : roundHalfEven (max 0 (min 100 (load_score_quality (some 20) 0 0
      (some 600) 0))) = 82 := by rw [hq, hclamp, hr]
  unfold calculate_load_score
  dsimp only
  rw [hscore]
  exact ⟨rfl, rfl⟩

/-- C10: the `trip_miles` argument has no influence on the scorer's output:
two invocations differing only in `trip_miles` return identical score,
category and key factors. -/
theorem load_score_trip_miles_no_influence (rate_comparison : Option ℚ)
    (weather_risk_score : ℚ) (deadhead_ratio : ℚ) (tm₁ tm₂ : ℚ)
    (driver_pay : Option ℚ) (weather_delay_hours : ℚ) :
    calculate_load_score rate_comparison weather_risk_score deadhead_ratio
      tm₁ driver_pay weather_delay_hours
    = calculate_load_score rate_comparison weather_risk_score deadhead_ratio
      tm₂ driver_pay weather_delay_hours := rfl

/-- C6 counterexample: with driver pay 300 (a positive number strictly
greater than 250) and every other factor inert, the pre-truncation factor
list is empty — no pay-tier phrase is appended, refuting the claim that a
pay above 250 always yields one. -/
theorem pay_tier_phrase_missing_at_300 :
    (250 : ℚ) < 300 ∧
    load_score_factors (some 0) 0 0 (some 300) 0 = [] := by
  constructor
  · norm_num
  · rfl

/-- C6 amended: a pay-tier phrase is appended to the factor candidate list
(before the at-most-3 truncation) exactly when the driver pay input is a
positive number strictly greater than 350; the `(250, 350]` tier adds its
+5 bonus without any phrase. -/
theorem pay_tier_phrase_above_350 (rate_comparison : Option ℚ)
    (weather_risk_score : ℚ) (deadhead_ratio : ℚ) (p : ℚ)
    (weather_delay_hours : ℚ) (hp : 350 < p) :
    Factor.excellentPay ∈ load_score_factors rate_comparison weather_risk_score
        deadhead_ratio (some p) weather_delay_hours ∨
    Factor.goodPay ∈ load_score_factors rate_comparison weather_risk_score
        deadhead_ratio (some p) weather_delay_hours := by
  have hp0 : (0 : ℚ) < p := lt_trans (by norm_num) hp
  unfold load_score_factors pay_factor_phrases
  by_cases h5 : 500 < p
  · left
    simp [hp0, h5, List.mem_append]
  · right
    simp [hp0, h5, hp, List.mem_append]

/-- C6 amended, witness: at driver pay 400 the "Good pay" phrase is in the
candidate list. -/
theorem pay_tier_phrase_above_350_witness :
    Factor.excellentPay ∈ load_score_factors (some 0) 0 0 (some 400) 0 ∨
    Factor.goodPay ∈ load_score_factors (some 0) 0 0 (some 400) 0 :=
  pay_tier_phrase_above_350 (some 0) 0 0 400 0 (by norm_num)

/-! ## DeadheadAnalyzer (`calculate_deadhead_analysis`, handler.py lines 412-483)

The Python function returns one of two dictionary shapes: a tagged invalid
result when `trip_miles <= 0`, or the full success record.  All divisions
sit behind that guard (plus the redundant inline `if trip_miles > 0` /
`if total_distance > 0` conditional expressions, reproduced here), so the
embedding is total: no exception, no NaN, no division by zero.
-/

/-- The success-shape dictionary of `calculate_deadhead_analysis`.
`summary` is the f-string
`f"Deadhead is {severity.lower()} at {round(total_deadhead_ratio * 100)}% of loaded miles. " + focus`. -/
structure DeadheadRecord where
  origin_deadhead_miles : ℚ
  destination_deadhead_miles : ℚ
  total_deadhead_miles : ℚ
  origin_deadhead_ratio : ℚ
  destination_deadhead_ratio : ℚ
  total_deadhead_ratio : ℚ
  paid_miles_percentage : ℚ
  unpaid_miles_percentage : ℚ
  severity : String
  impact : String
  summary : String
  deriving DecidableEq

/-- The two result shapes of `calculate_deadhead_analysis`: the
`status: "invalid"` dictionary carries only its message and none of the
ratio, percentage, severity or impact fields; the `status: "success"`
dictionary carries the full record. -/
inductive DeadheadResult where
  | invalid (message : String)
  | success (record : DeadheadRecord)
  deriving DecidableEq

/-- The severity / impact classification on the rounded total deadhead
ratio. -/
def deadhead_severity_impact (total_deadhead_ratio : ℚ) : String × String :=
  if total_deadhead_ratio ≤ 0.1 then ("Excellent", "Very Low")
  else if total_deadhead_ratio ≤ 0.2 then ("Good", "Low")
  else if total_deadhead_ratio ≤ 0.3 then ("Average", "Moderate")
  else if total_deadhead_ratio ≤ 0.5 then ("Poor", "High")
  else ("Very Poor", "Severe")

/-- The success record built by `calculate_deadhead_analysis` once the
trip-miles guard has passed, line for line from the source body. -/
def deadhead_success_record (origin_deadhead_miles destination_deadhead_miles
    trip_miles : ℚ) : DeadheadRecord :=
  let total_deadhead := origin_deadhead_miles + destination_deadhead_miles
  let origin_deadhead_ratio :=
    if 0 < trip_miles then roundTo2 (origin_deadhead_miles / trip_miles) else 0
  let destination_deadhead_ratio :=
    if 0 < trip_miles then roundTo2 (destination_deadhead_miles / trip_miles) else 0
  let total_deadhead_ratio :=
    if 0 < trip_miles then roundTo2 (total_deadhead / trip_miles) else 0
  let total_distance := trip_miles + total_deadhead
  let paid_miles_percentage :=
    if 0 < total_distance then roundTo1 (trip_miles / total_distance * 100) else 0
  let unpaid_miles_percentage :=
    if 0 < total_distance then roundTo1 (total_deadhead / total_distance * 100) else 0
  let si := deadhead_severity_impact total_deadhead_ratio
  let focus :=
    if destination_deadhead_miles < origin_deadhead_miles then
      "Pickup deadhead is your main concern."
    else if origin_deadhead_miles < destination_deadhead_miles then
      "Consider your next load after delivery."
    else ""
  { origin_deadhead_miles := origin_deadhead_miles
    destination_deadhead_miles := destination_deadhead_miles
    total_deadhead_miles := total_deadhead
    origin_deadhead_ratio := origin_deadhead_ratio
    destination_deadhead_ratio := destination_deadhead_ratio
    total_deadhead_ratio := total_deadhead_ratio
    paid_miles_percentage := paid_miles_percentage
    unpaid_miles_percentage := unpaid_miles_percentage
    severity := si.1
    impact := si.2
    summary := "Deadhead is " ++ (si.1.map Char.toLower) ++ " at "
      ++ toString (roundHalfEven (total_deadhead_ratio * 100))
      ++ "% of loaded miles. " ++ focus }

/-- `calculate_deadhead_analysis` (handler.py lines 412-483). -/
def calculate_deadhead_analysis (origin_deadhead_miles destination_deadhead_miles
    trip_miles : ℚ) : DeadheadResult :=
  if trip_miles ≤ 0 then
    DeadheadResult.invalid "Trip miles must be greater than zero"
  else
    DeadheadResult.success (deadhead_success_record origin_deadhead_miles
      destination_deadhead_miles trip_miles)

/-- C8: for trip miles ≤ 0 the analyzer returns the tagged invalid result
(a constructor carrying only the message, hence no ratio, percentage,
severity or impact fields), and for trip miles > 0 it returns a success
result; the embedding is a total function, so no exception, NaN or
division by zero occurs on either path. -/
theorem deadhead_trip_miles_guard (origin_deadhead_miles
    destination_deadhead_miles trip_miles : ℚ) :
    (trip_miles ≤ 0 →
      calculate_deadhead_analysis origin_deadhead_miles
        destination_deadhead_miles trip_miles
      = DeadheadResult.invalid "Trip miles must be greater than zero") ∧
    (0 < trip_miles →
      calculate_deadhead_analysis origin_deadhead_miles
        destination_deadhead_miles trip_miles
      = DeadheadResult.success (deadhead_success_record origin_deadhead_miles
          destination_deadhead_miles trip_miles)) := by
  constructor
  · intro h
    unfold calculate_deadhead_analysis
    rw [if_pos h]
  · intro h
    unfold calculate_deadhead_analysis
    rw [if_neg (not_le.mpr h)]

/-- C8, witness: trip miles 0 yields the invalid result and trip miles 500
the success result. -/
theorem deadhead_trip_miles_guard_witness :
    calculate_deadhead_analysis 50 30 0
      = DeadheadResult.invalid "Trip miles must be greater than zero" ∧
    calculate_deadhead_analysis 50 30 500
      = DeadheadResult.success (deadhead_success_record 50 30 500) :=
  ⟨(deadhead_trip_miles_guard 50 30 0).1 (by norm_num),
   (deadhead_trip_miles_guard 50 30 500).2 (by norm_num)⟩

/-- C7: for non-negative deadhead legs and positive trip miles, the success
record's paid and unpaid mile percentages sum to 100 within the ±0.1
rounding tolerance. -/
theorem deadhead_paid_unpaid_sum (origin_deadhead_miles
    destination_deadhead_miles trip_miles : ℚ)
    (ho : 0 ≤ origin_deadhead_miles) (hd : 0 ≤ destination_deadhead_miles)
    (ht : 0 < trip_miles) (r : DeadheadRecord)
    (hr : calculate_deadhead_analysis origin_deadhead_miles
      destination_deadhead_miles trip_miles = DeadheadResult.success r) :
    |r.paid_miles_percentage + r.unpaid_miles_percentage - 100| ≤ 1/10 := by
  rw [(deadhead_trip_miles_guard origin_deadhead_miles destination_deadhead_miles
    trip_miles).2 ht] at hr
  cases hr
  unfold deadhead_success_record
  dsimp only
  have htd : 0 < trip_miles + (origin_deadhead_miles + destination_deadhead_miles) := by
    linarith
  rw [if_pos htd, if_pos htd]
  set td := trip_miles + (origin_deadhead_miles + destination_deadhead_miles) with htd_def
  have hx := roundTo1_abs_sub_le (trip_miles / td * 100)
  have hy := roundTo1_abs_sub_le ((origin_deadhead_miles + destination_deadhead_miles) / td * 100)
  have hsum : trip_miles / td * 100
      + (origin_deadhead_miles + destination_deadhead_miles) / td * 100 = 100 := by
    field_simp
    ring
  rw [abs_le] at hx hy ⊢
  constructor <;> [linarith [hx.1, hy.1]; linarith [hx.2, hy.2]]

/-- C7, witness: legs 50 and 30 on a 500-mile trip give 86.2 + 13.8 = 100,
within tolerance. -/
theorem deadhead_paid_unpaid_sum_witness :
    |(deadhead_success_record 50 30 500).paid_miles_percentage
      + (deadhead_success_record 50 30 500).unpaid_miles_percentage - 100| ≤ 1/10 :=
  deadhead_paid_unpaid_sum 50 30 500 (by norm_num) (by norm_num) (by norm_num)
    (deadhead_success_record 50 30 500) rfl

/-! ## RateComparator (`get_rate_comparison`, handler.py lines 646-671)

The two rate arguments are `Optional[float]`; `none` models Python `None`.
Result fields of Python type `Union[float, str]` become small inductives;
the comparison narrative, an f-string over the rounded difference, becomes
an inductive carrying that payload.
-/

/-- A `Union[float, str]` rate field: either the numeric rate or the string
`"Not Available"`. -/
inductive RateField where
  | val (rate : ℚ)
  | notAvailable
  deriving DecidableEq

/-- The `difference_percentage` field: either the rounded percentage or the
string `"N/A"`. -/
inductive DiffField where
  | pct (difference : ℚ)
  | na
  deriving DecidableEq

/-- The `comparison` narrative.
`notPossible` is `"Rate comparison not possible"`,
`above q` is `f"{abs(round(difference_percentage, 2))}% above market rate"`,
`below q` is `f"{abs(round(difference_percentage, 2))}% below market rate"`,
`atMarket` is `"At market rate"`. -/
inductive ComparisonNarrative where
  | notPossible
  | above (pct : ℚ)
  | below (pct : ℚ)
  | atMarket
  deriving DecidableEq

/-- Result dictionary of `get_rate_comparison`. -/
structure RateComparison where
  broker_rate_per_mile : RateField
  market_rate_per_mile : RateField
  difference_percentage : DiffField
  comparison : ComparisonNarrative
  deriving DecidableEq

/-- `load_rate is None or load_rate <= 0` (and likewise for the market
rate): the unusable-rate test of the sentinel guard. -/
def rateUnusable (rate : Option ℚ) : Bool :=
  match rate with
  | none => true
  | some r => decide (r ≤ 0)

/-- The sentinel echo of one input rate:
`"Not Available" if rate is None or rate <= 0 else rate`. -/
def echoRate (rate : Option ℚ) : RateField :=
  match rate with
  | none => RateField.notAvailable
  | some r => if r ≤ 0 then RateField.notAvailable else RateField.val r

/-- `get_rate_comparison` (handler.py lines 646-671). -/
def get_rate_comparison (load_rate market_rate : Option ℚ) : RateComparison :=
  match load_rate, market_rate with
  | some l, some m =>
      if l ≤ 0 ∨ m ≤ 0 then
        { broker_rate_per_mile := echoRate (some l)
          market_rate_per_mile := echoRate (some m)
          difference_percentage := DiffField.na
          comparison := ComparisonNarrative.notPossible }
      else
        let difference_percentage := (l - m) / m * 100
        { broker_rate_per_mile := RateField.val l
          market_rate_per_mile := RateField.val m
          difference_percentage := DiffField.pct (roundTo2 difference_percentage)
          comparison :=
            if 0 < difference_percentage then
              ComparisonNarrative.above |roundTo2 difference_percentage|
            else if difference_percentage < 0 then
              ComparisonNarrative.below |roundTo2 difference_percentage|
            else ComparisonNarrative.atMarket }
  | _, _ =>
      { broker_rate_per_mile := echoRate load_rate
        market_rate_per_mile := echoRate market_rate
        difference_percentage := DiffField.na
        comparison := ComparisonNarrative.notPossible }

/-- C9: `get_rate_comparison` returns the "Not Available" sentinel state
(difference "N/A", narrative "Rate comparison not possible", each rate
echoed as its value when positive and "Not Available" otherwise) exactly
when the broker or market rate is missing or non-positive, and in the
sentinel case no division is performed (the sentinel branch is built from
the echoes alone); with both rates positive it returns the rounded
percentage `(broker − market) / market × 100`. -/
theorem rate_comparison_sentinel_iff (load_rate market_rate : Option ℚ) :
    (((get_rate_comparison load_rate market_rate).difference_percentage = DiffField.na
      ∧ (get_rate_comparison load_rate market_rate).comparison = ComparisonNarrative.notPossible
      ∧ (get_rate_comparison load_rate market_rate).broker_rate_per_mile = echoRate load_rate
      ∧ (get_rate_comparison load_rate market_rate).market_rate_per_mile = echoRate market_rate)
      ↔ (rateUnusable load_rate = true ∨ rateUnusable market_rate = true)) ∧
    (∀ l m, load_rate = some l → market_rate = some m → 0 < l → 0 < m →
      (get_rate_comparison load_rate market_rate).difference_percentage
        = DiffField.pct (roundTo2 ((l - m) / m * 100))) := by
  constructor
  · match load_rate, market_rate with
    | some l, some m =>
        simp only [get_rate_comparison, rateUnusable]
        by_cases h : l ≤ 0 ∨ m ≤ 0
        · rw [if_pos h]
          simp only [decide_eq_true_eq]
          refine ⟨fun _ => h.imp id id, fun _ => ?_⟩
          simp
        · rw [if_neg h]
          simp only [decide_eq_true_eq]
          constructor
          · rintro ⟨hna, -⟩
            exact absurd hna (by simp)
          · intro hor
            exact absurd (hor.imp id id) h
    | some l, none =>
        simp only [get_rate_comparison, rateUnusable]
        simp
    | none, some m =>
        simp only [get_rate_comparison, rateUnusable]
        simp
    | none, none =>
        simp only [get_rate_comparison, rateUnusable]
        simp
  · rintro l m rfl rfl hl hm
    simp only [get_rate_comparison]
    rw [if_neg (by push_neg; exact ⟨hl, hm⟩)]

/-- C9, witness: a zero broker rate yields the full sentinel state, and
broker 3 vs market 2 yields the 50% difference. -/
theorem rate_comparison_sentinel_iff_witness :
    ((get_rate_comparison (some 0) (some 2)).difference_percentage = DiffField.na
      ∧ (get_rate_comparison (some 0) (some 2)).comparison = ComparisonNarrative.notPossible
      ∧ (get_rate_comparison (some 0) (some 2)).broker_rate_per_mile = echoRate (some 0)
      ∧ (get_rate_comparison (some 0) (some 2)).market_rate_per_mile = echoRate (some 2)) ∧
    (get_rate_comparison (some 3) (some 2)).difference_percentage
      = DiffField.pct (roundTo2 ((3 - 2) / 2 * 100)) :=
  ⟨(rate_comparison_sentinel_iff (some 0) (some 2)).1.mpr (Or.inl (by decide)),
   (rate_comparison_sentinel_iff (some 3) (some 2)).2 3 2 rfl rfl (by norm_num)
     (by norm_num)⟩

/-! ## Weather data model (`get_weather_data`, handler.py lines 61-137)

`get_weather_data` itself is an external HTTP collaborator; the core
consumes its two possible return shapes, which become the two constructors
of `WeatherData`: the success dictionary (with `api_status = "success"`,
location, at most 24 hourly entries and the daily entries, and no `"error"`
key) and the error dictionary (with an `"error"` key and an `api_status` of
`"error"` or `"exception"`, and no forecast keys).
-/

/-- The `location` sub-dictionary of a successful weather result. -/
structure Location where
  latitude : ℚ
  longitude : ℚ
  timezone : String
  elevation : Option ℚ
  deriving DecidableEq

/-- One entry of `hourly_forecast` (the `weather_description` field, a pure
lookup from the code, is omitted by the consumers modelled here). -/
structure WeatherSample where
  time : String
  temperature_celsius : ℚ
  precipitation_mm : ℚ
  wind_speed_kmh : ℚ
  weather_code : ℕ
  deriving DecidableEq

/-- One entry of `daily_forecast`. -/
structure DailyEntry where
  date : String
  weather_code : ℕ
  weather_description : String
  max_temperature_celsius : ℚ
  min_temperature_celsius : ℚ
  precipitation_sum_mm : ℚ
  deriving DecidableEq

/-- The two dictionary shapes returned by `get_weather_data`. -/
inductive WeatherData where
  | succ (location : Location) (hourly_forecast : List WeatherSample)
      (daily_forecast : List DailyEntry)
  | failure (error : String) (api_status : String)
  deriving DecidableEq

/-- `"error" in weather_data`. -/
def hasErrorKey : WeatherData → Bool
  | WeatherData.succ _ _ _ => false
  | WeatherData.failure _ _ => true

/-- `weather_data.get("api_status")`: the success shape stores the literal
`"success"` (handler.py line 89); the error shape stores its own status. -/
def apiStatus : WeatherData → String
  | WeatherData.succ _ _ _ => "success"
  | WeatherData.failure _ st => st

/-! ## HazardDetector (`check_for_hazards`, handler.py lines 139-198) -/

/-- One hazard dictionary appended by `check_for_hazards`; the optional
`precipitation` and `wind_speed` fields are present only on the Heavy Rain
and High Winds events respectively. -/
structure Hazard where
  type : String
  time : String
  severity : String
  precipitation : Option ℚ
  wind_speed : Option ℚ
  deriving DecidableEq

/-- The mutually exclusive weather-code classification of one hourly sample
(the `if`/`elif` chain on `weather_code`). -/
def code_hazards (hour : WeatherSample) : List Hazard :=
  if hour.weather_code ∈ [71, 73, 75, 77, 85, 86] then
    [{ type := "Snow", time := hour.time,
       severity := if hour.weather_code ∈ [75, 86] then "high" else "medium",
       precipitation := none, wind_speed := none }]
  else if hour.weather_code ∈ [95, 96, 99] then
    [{ type := "Thunderstorm", time := hour.time, severity := "high",
       precipitation := none, wind_speed := none }]
  else if hour.weather_code ∈ [66, 67] then
    [{ type := "Freezing Rain", time := hour.time, severity := "high",
       precipitation := none, wind_speed := none }]
  else if hour.weather_code ∈ [45, 48] then
    [{ type := "Fog", time := hour.time, severity := "medium",
       precipitation := none, wind_speed := none }]
  else []

/-- The independent heavy-precipitation check (`precipitation_mm > 4`). -/
def precipitation_hazards (hour : WeatherSample) : List Hazard :=
  if 4 < hour.precipitation_mm then
    [{ type := "Heavy Rain", time := hour.time, severity := "medium",
       precipitation := some hour.precipitation_mm, wind_speed := none }]
  else []

/-- The independent high-wind check (`wind_speed_kmh > 30`, severity medium
below 50). -/
def wind_hazards (hour : WeatherSample) : List Hazard :=
  if 30 < hour.wind_speed_kmh then
    [{ type := "High Winds", time := hour.time,
       severity := if hour.wind_speed_kmh < 50 then "medium" else "high",
       precipitation := none, wind_speed := some hour.wind_speed_kmh }]
  else []

/-- The hazards one hourly sample appends to the `hazards` list, in the
source's append order: code-driven event, then heavy rain, then high
winds. -/
def hazardsOfSample (hour : WeatherSample) : List Hazard :=
  code_hazards hour ++ precipitation_hazards hour ++ wind_hazards hour

/-- The full hazard list over the hourly forecast, preserving sample
order. -/
def hourlyHazards (hourly_forecast : List WeatherSample) : List Hazard :=
  (hourly_forecast.map hazardsOfSample).flatten

/-- The two result shapes of `check_for_hazards`: the error echo
`{"error": ...}` or the analysis dictionary. -/
inductive HazardCheck where
  | err (error : String)
  | ok (location : Location) (hazards : List Hazard) (hazard_count : ℕ)
      (has_severe_hazards : Bool)
  deriving DecidableEq

/-- `check_for_hazards` (handler.py lines 139-198). -/
def check_for_hazards : WeatherData → HazardCheck
  | WeatherData.failure e _ => HazardCheck.err e
  | WeatherData.succ location hourly_forecast _ =>
      let hazards := hourlyHazards hourly_forecast
      HazardCheck.ok location hazards hazards.length
        (hazards.any fun h => h.severity == "high")

lemma code_hazards_length_le (hour : WeatherSample) :
    (code_hazards hour).length ≤ 1 := by
  unfold code_hazards
  split_ifs <;> simp

lemma precipitation_hazards_length_le (hour : WeatherSample) :
    (precipitation_hazards hour).length ≤ 1 := by
  unfold precipitation_hazards
  split_ifs <;> simp

lemma wind_hazards_length_le (hour : WeatherSample) :
    (wind_hazards hour).length ≤ 1 := by
  unfold wind_hazards
  split_ifs <;> simp

/-- The hourly sample used below: heavy-snow code 75 with 5 mm
precipitation and 60 km/h wind. -/
def stormSample : WeatherSample :=
  { time := "t0", temperature_celsius := 0, precipitation_mm := 5,
    wind_speed_kmh := 60, weather_code := 75 }

/-- C5 counterexample: the hourly sample with weather code 75 (heavy snow),
precipitation 5 mm and wind 60 km/h yields three hazard events — a
high-severity Snow event, a Heavy Rain event and a high-severity High Winds
event — refuting the claim that one sample emits at most two. -/
theorem hazard_detector_three_events_sample :
    hazardsOfSample stormSample
      = [{ type := "Snow", time := "t0", severity := "high", precipitation := none,
           wind_speed := none },
         { type := "Heavy Rain", time := "t0", severity := "medium",
           precipitation := some 5, wind_speed := none },
         { type := "High Winds", time := "t0", severity := "high", precipitation := none,
           wind_speed := some 60 }] ∧
    2 < (hazardsOfSample stormSample).length := by
  constructor
  · norm_num [hazardsOfSample, stormSample, code_hazards, precipitation_hazards,
      wind_hazards]
  · norm_num [hazardsOfSample, stormSample, code_hazards, precipitation_hazards,
      wind_hazards]

/-- C5 amended: the hazard detector emits at most three hazard events from
any single hourly weather sample (at most one code-driven event, at most
one Heavy Rain event, at most one High Winds event). -/
theorem hazard_detector_at_most_three (hour : WeatherSample) :
    (hazardsOfSample hour).length ≤ 3 := by
  unfold hazardsOfSample
  rw [List.length_append, List.length_append]
  have h1 := code_hazards_length_le hour
  have h2 := precipitation_hazards_length_le hour
  have h3 := wind_hazards_length_le hour
  omega

/-! ## DelayEstimator (`estimate_weather_delay`, handler.py lines 200-302) -/

/-- One entry of the `delay_factors` list. -/
structure DelayFactor where
  type : String
  severity : String
  delay_hours : ℚ
  deriving DecidableEq

/-- Result dictionary of `estimate_weather_delay`.  The early-return branch
for `not hazards or trip_miles <= 0` builds its dictionary without the
`delay_percentage` key, hence that field is optional. -/
structure DelayEstimate where
  estimated_delay_hours : ℚ
  delay_percentage : Option ℚ
  delay_factors : List DelayFactor
  impact_level : String
  deriving DecidableEq

/-- The `weather_impacts` table: `(speed_factor, route_affected)` per
recognized (type, severity) pair; unrecognized pairs are skipped. -/
def weather_impacts (type severity : String) : Option (ℚ × ℚ) :=
  match type, severity with
  | "Snow", "high" => some (0.4, 0.6)
  | "Snow", "medium" => some (0.6, 0.5)
  | "Freezing Rain", "high" => some (0.35, 0.5)
  | "Freezing Rain", "medium" => some (0.5, 0.4)
  | "Thunderstorm", "high" => some (0.5, 0.3)
  | "Thunderstorm", "medium" => some (0.7, 0.2)
  | "Fog", "high" => some (0.4, 0.4)
  | "Fog", "medium" => some (0.6, 0.3)
  | "Heavy Rain", "high" => some (0.6, 0.4)
  | "Heavy Rain", "medium" => some (0.7, 0.3)
  | "High Winds", "high" => some (0.7, 0.6)
  | "High Winds", "medium" => some (0.8, 0.4)
  | _, _ => none

/-- The loop body of `estimate_weather_delay`: fold state is the running
`(total_delay_hours, delay_factors)` pair; a per-hazard delay at or below
the 0.25-hour noise floor is discarded.  (Every `Hazard` of this embedding
carries a severity, so Python's `hazard.get("severity", "medium")` default
never fires.) -/
def delay_step (trip_miles : ℚ) (acc : ℚ × List DelayFactor) (hazard : Hazard) :
    ℚ × List DelayFactor :=
  match weather_impacts hazard.type hazard.severity with
  | none => acc
  | some (speed_factor, route_affected) =>
      let affected_miles := trip_miles * route_affected
      let normal_segment_time := affected_miles / 55
      let actual_segment_time := affected_miles / (55 * speed_factor)
      let segment_delay := actual_segment_time - normal_segment_time
      if 0.25 < segment_delay then
        (acc.1 + segment_delay,
         acc.2 ++ [{ type := hazard.type, severity := hazard.severity,
                     delay_hours := roundTo1 segment_delay }])
      else acc

/-- `estimate_weather_delay` (handler.py lines 200-302); baseline speed
55 mph. -/
def estimate_weather_delay (hazards : List Hazard) (trip_miles : ℚ) : DelayEstimate :=
  if hazards = [] ∨ trip_miles ≤ 0 then
    { estimated_delay_hours := 0, delay_percentage := none
      delay_factors := [], impact_level := "None" }
  else
    let normal_trip_time := trip_miles / 55
    let acc := hazards.foldl (delay_step trip_miles) (0, [])
    let total_delay_hours := acc.1
    let impact_level :=
      if total_delay_hours < 0.5 then "Minimal"
      else if total_delay_hours < 2 then "Moderate"
      else if total_delay_hours < 4 then "Significant"
      else "Severe"
    { estimated_delay_hours := roundTo1 total_delay_hours
      delay_percentage := some (roundTo1 (total_delay_hours / normal_trip_time * 100))
      delay_factors := acc.2
      impact_level := impact_level }

/-- The single high-severity Snow hazard used in the delay theorems
below. -/
def snowHighHazard : Hazard :=
  { type := "Snow", time := "t1", severity := "high", precipitation := none,
    wind_speed := none }

/-- C4 counterexample: one high-severity Snow hazard on a 10-mile trip has
its 9/55 h ≈ 0.16 h segment delay discarded by the 0.25-hour noise floor,
so the total delay is 0 — yet the impact level is "Minimal", a non-None
level at zero hours, refuting the claim that the non-None levels are
reachable only at strictly positive total delay. -/
theorem delay_minimal_impact_at_zero_hours :
    (estimate_weather_delay [snowHighHazard] 10).estimated_delay_hours = 0 ∧
    (estimate_weather_delay [snowHighHazard] 10).impact_level = "Minimal" := by
  have hfold : List.foldl (delay_step 10) ((0 : ℚ), ([] : List DelayFactor))
      [snowHighHazard] = (0, []) := by
    norm_num [List.foldl, delay_step, snowHighHazard, weather_impacts]
  constructor <;>
    simp only [estimate_weather_delay, hfold] <;>
    norm_num [roundTo1, roundHalfEven, snowHighHazard]

/-- C4 amended: the impact level is "None" exactly when the hazard list is
empty or the trip miles are non-positive; on any other input whose rounded
total delay is 0 hours (for instance when every per-hazard delay is
discarded by the 0.25-hour noise floor) the impact level is "Minimal", not
"None". -/
theorem delay_impact_level_none_iff (hazards : List Hazard) (trip_miles : ℚ) :
    ((estimate_weather_delay hazards trip_miles).impact_level = "None"
      ↔ (hazards = [] ∨ trip_miles ≤ 0)) ∧
    (¬(hazards = [] ∨ trip_miles ≤ 0) →
      (estimate_weather_delay hazards trip_miles).estimated_delay_hours = 0 →
      (estimate_weather_delay hazards trip_miles).impact_level = "Minimal") := by
  by_cases hg : hazards = [] ∨ trip_miles ≤ 0
  · refine ⟨⟨fun _ => hg, fun _ => ?_⟩, fun hc => absurd hg hc⟩
    rw [estimate_weather_delay, if_pos hg]
  · rw [estimate_weather_delay, if_neg hg]
    dsimp only
    set total := (hazards.foldl (delay_step trip_miles) (0, [])).1 with htotal
    refine ⟨⟨fun hnone => ?_, fun h => absurd h hg⟩, fun _ hzero => ?_⟩
    · split_ifs at hnone <;> exact absurd hnone (by decide)
    · have h0 : roundHalfEven (10 * total) = 0 := by
        have h10 : (roundHalfEven (10 * total) : ℚ) / 10 = 0 := hzero
        have := (div_eq_zero_iff.mp h10).resolve_right (by norm_num)
        exact_mod_cast this
      have hb := roundHalfEven_abs_sub_le (10 * total)
      rw [h0, abs_le] at hb
      have htl : total < 0.5 := by
        push_cast at hb
        nlinarith [hb.1]
      rw [if_pos htl]

/-- The medium-severity Thunderstorm hazard used in the delay witness. -/
def thunderMediumHazard : Hazard :=
  { type := "Thunderstorm", time := "t2", severity := "medium",
    precipitation := none, wind_speed := none }

/-- C4 amended, witness: one medium Thunderstorm hazard on a 20-mile trip
(all delays floored away) gives impact level "Minimal". -/
theorem delay_impact_level_none_iff_witness :
    (estimate_weather_delay [thunderMediumHazard] 20).impact_level = "Minimal" :=
  (delay_impact_level_none_iff [thunderMediumHazard] 20).2
    (by norm_num)
    (by norm_num [estimate_weather_delay, List.foldl, delay_step, weather_impacts,
      thunderMediumHazard, roundTo1, roundHalfEven])

/-! ## WeatherRiskSummarizer (`get_simple_weather_analysis`, handler.py
lines 304-409) -/

/-- `charsStartWith pat text`: `pat` is an initial segment of `text`. -/
def charsStartWith : List Char → List Char → Bool
  | [], _ => true
  | _ :: _, [] => false
  | p :: ps, c :: cs => p == c && charsStartWith ps cs

/-- `charsContain pat text`: `pat` occurs contiguously inside `text`. -/
def charsContain (pat : List Char) : List Char → Bool
  | [] => charsStartWith pat []
  | c :: cs => charsStartWith pat (c :: cs) || charsContain pat cs

/-- Python's `pat in s` substring test on strings. -/
def strContainsSubstr (s pat : String) : Bool := charsContain pat.data s.data

/-- The summary's distinct hazard type names: the source tests each of the
six type names for substring occurrence in each hazard label, collects the
matches into a set and sorts it lexicographically; filtering the
lexicographically pre-sorted candidate list produces exactly that sorted
set. -/
def summaryHazardTypes (hazardLabels : List String) : List String :=
  ["Fog", "Freezing Rain", "Heavy Rain", "High Winds", "Snow", "Thunderstorm"].filter
    fun t => hazardLabels.any fun s => strContainsSubstr s t

/-- The `summary` string of the weather analysis.  Constructors stand for
the exact strings built by the source:
`noData` is `"No weather data available"`;
`hazardsWithDelay types impact hours ow dw` is
`f"Weather conditions include {types}. Expect {impact.lower()} delays of approximately {hours} hours. Origin: {ow}, Destination: {dw}"`;
`hazardsNoDelay types ow dw` is
`f"Weather conditions include {types}. No significant delays expected. Origin: {ow}, Destination: {dw}"`;
`noHazards ow dw` is
`f"No significant weather hazards. Origin: {ow}, Destination: {dw}"`. -/
inductive Summary where
  | noData
  | hazardsWithDelay (types : List String) (impact_level : String)
      (delay_hours : ℚ) (origin_weather destination_weather : String)
  | hazardsNoDelay (types : List String)
      (origin_weather destination_weather : String)
  | noHazards (origin_weather destination_weather : String)
  deriving DecidableEq

/-- Result dictionary of `get_simple_weather_analysis`. -/
structure WeatherAnalysis where
  summary : Summary
  risk_level : String
  risk_score : ℕ
  hazards : List String
  estimated_delay : DelayEstimate
  deriving DecidableEq

/-- The fixed no-data analysis the function initializes and returns
unchanged when either side's weather data is absent (its embedded delay
dictionary, like the estimator's early return, has no `delay_percentage`
key). -/
def noDataAnalysis : WeatherAnalysis :=
  { summary := Summary.noData, risk_level := "Unknown", risk_score := 0,
    hazards := [],
    estimated_delay := { estimated_delay_hours := 0, delay_percentage := none,
                         delay_factors := [], impact_level := "None" } }

/-- `f"Origin: {hazard['type']} ({hazard['severity']} risk)"`. -/
def originHazardLabel (h : Hazard) : String :=
  "Origin: " ++ h.type ++ " (" ++ h.severity ++ " risk)"

/-- `f"Destination: {hazard['type']} ({hazard['severity']} risk)"`. -/
def destinationHazardLabel (h : Hazard) : String :=
  "Destination: " ++ h.type ++ " (" ++ h.severity ++ " risk)"

/-- First-day forecast description: `"Unknown"` unless the data has a
nonempty `daily_forecast` (the error shape has no such key). -/
def firstDayDescription : WeatherData → String
  | WeatherData.succ _ _ (first_day :: _) => first_day.weather_description
  | _ => "Unknown"

/-- The risk-level thresholds on the capped risk score. -/
def weather_risk_level (risk_score : ℕ) : String :=
  if risk_score = 0 then "None"
  else if risk_score < 25 then "Low"
  else if risk_score < 50 then "Medium"
  else if risk_score < 75 then "High"
  else "Severe"

/-- `get_simple_weather_analysis` (handler.py lines 304-409).  `none`
models a falsy (absent) weather argument; each side is processed only
behind its own `"error" not in data and data.get("api_status") == "success"`
guard, and `check_for_hazards`'s result contributes only when it is not
error-shaped. -/
def get_simple_weather_analysis (origin_weather_data destination_weather_data :
    Option WeatherData) (trip_miles : ℚ) : WeatherAnalysis :=
  match origin_weather_data, destination_weather_data with
  | some ow, some dw =>
      let origin_hazards : Option HazardCheck :=
        if !hasErrorKey ow && (apiStatus ow == "success") then
          some (check_for_hazards ow)
        else none
      let originList : List Hazard :=
        match origin_hazards with
        | some (HazardCheck.ok _ hz _ _) => hz
        | _ => []
      let dest_hazards : Option HazardCheck :=
        if !hasErrorKey dw && (apiStatus dw == "success") then
          some (check_for_hazards dw)
        else none
      let destList : List Hazard :=
        match dest_hazards with
        | some (HazardCheck.ok _ hz _ _) => hz
        | _ => []
      let hazardLabels := originList.map originHazardLabel
        ++ destList.map destinationHazardLabel
      let all_hazards := originList ++ destList
      let origin_weather := firstDayDescription ow
      let destination_weather := firstDayDescription dw
      let risk_score_raw : ℕ :=
        (match origin_hazards with
         | some (HazardCheck.ok _ hz _ _) =>
             (hz.filter fun h => h.severity == "high").length * 20
               + (hz.filter fun h => h.severity == "medium").length * 10
         | _ => 0)
        + (match dest_hazards with
           | some (HazardCheck.ok _ hz _ _) =>
               (hz.filter fun h => h.severity == "high").length * 15
                 + (hz.filter fun h => h.severity == "medium").length * 5
           | _ => 0)
      let risk_score := min risk_score_raw 100
      let delay_info := estimate_weather_delay all_hazards trip_miles
      let summary :=
        if hazardLabels ≠ [] then
          let types := summaryHazardTypes hazardLabels
          if 0 < delay_info.estimated_delay_hours then
            Summary.hazardsWithDelay types delay_info.impact_level
              delay_info.estimated_delay_hours origin_weather destination_weather
          else
            Summary.hazardsNoDelay types origin_weather destination_weather
        else Summary.noHazards origin_weather destination_weather
      { summary := summary, risk_level := weather_risk_level risk_score,
        risk_score := risk_score, hazards := hazardLabels,
        estimated_delay := delay_info }
  | _, _ => noDataAnalysis

/-- C3: if either weather argument is entirely absent the analysis is the
fixed no-data state (summary "No weather data available", risk level
Unknown, risk score 0, no hazards, zero-valued delay estimate with impact
level None); when both are present, a side that is error-tagged (the
failure shape, which also never carries `api_status == "success"`)
contributes no hazard labels and no risk points, while a success-shaped
side contributes its labelled hourly hazards and its risk points (20/10
per high/medium at the origin, 15/5 at the destination, capped at 100) —
no error value reaches the returned analysis. -/
theorem weather_analysis_guard_and_error_isolation
    (origin_weather_data destination_weather_data : Option WeatherData)
    (trip_miles : ℚ) :
    ((origin_weather_data = none ∨ destination_weather_data = none) →
      get_simple_weather_analysis origin_weather_data destination_weather_data
        trip_miles = noDataAnalysis) ∧
    (∀ ow dw, origin_weather_data = some ow → destination_weather_data = some dw →
      (get_simple_weather_analysis origin_weather_data destination_weather_data
          trip_miles).hazards
        = (match ow with
           | WeatherData.succ _ hf _ => (hourlyHazards hf).map originHazardLabel
           | WeatherData.failure _ _ => [])
          ++ (match dw with
              | WeatherData.succ _ hf _ => (hourlyHazards hf).map destinationHazardLabel
              | WeatherData.failure _ _ => []) ∧
      (get_simple_weather_analysis origin_weather_data destination_weather_data
          trip_miles).risk_score
        = min ((match ow with
                | WeatherData.succ _ hf _ =>
                    ((hourlyHazards hf).filter fun h => h.severity == "high").length * 20
                      + ((hourlyHazards hf).filter fun h => h.severity == "medium").length * 10
                | WeatherData.failure _ _ => 0)
              + (match dw with
                 | WeatherData.succ _ hf _ =>
                     ((hourlyHazards hf).filter fun h => h.severity == "high").length * 15
                       + ((hourlyHazards hf).filter fun h => h.severity == "medium").length * 5
                 | WeatherData.failure _ _ => 0)) 100) := by
  constructor
  · rintro (rfl | rfl)
    · cases destination_weather_data <;> rfl
    · cases origin_weather_data <;> rfl
  · rintro ow dw rfl rfl
    cases ow <;> cases dw <;>
      simp [get_simple_weather_analysis, hasErrorKey, apiStatus, check_for_hazards]

/-- One Thunderstorm-producing hourly sample (weather code 95, no rain, no
wind). -/
def thunderSample : WeatherSample :=
  { time := "t3", temperature_celsius := 0, precipitation_mm := 0,
    wind_speed_kmh := 0, weather_code := 95 }

/-- A placeholder location. -/
def originLocation : Location :=
  { latitude := 0, longitude := 0, timezone := "UTC", elevation := none }

/-- A successful weather result whose single hourly sample yields one
high-severity Thunderstorm hazard. -/
def stormWeather : WeatherData :=
  WeatherData.succ originLocation [thunderSample] []

/-- An error-shaped weather result. -/
def failedWeather : WeatherData := WeatherData.failure "API error: 500" "error"

/-- C3, witness: with the origin data absent the analysis is the no-data
state; with a stormy origin and an error-tagged destination, only the
origin's Thunderstorm hazard and its 20 risk points appear. -/
theorem weather_analysis_guard_witness :
    get_simple_weather_analysis none (some stormWeather) 100 = noDataAnalysis ∧
    (get_simple_weather_analysis (some stormWeather) (some failedWeather)
        100).hazards = ["Origin: Thunderstorm (high risk)"] ∧
    (get_simple_weather_analysis (some stormWeather) (some failedWeather)
        100).risk_score = 20 := by
  refine ⟨(weather_analysis_guard_and_error_isolation none (some stormWeather)
      100).1 (Or.inl rfl), ?_, ?_⟩
  · rw [((weather_analysis_guard_and_error_isolation (some stormWeather)
      (some failedWeather) 100).2 stormWeather failedWeather rfl rfl).1]
    rfl
  · rw [((weather_analysis_guard_and_error_isolation (some stormWeather)
      (some failedWeather) 100).2 stormWeather failedWeather rfl rfl).2]
    rfl
